import Mathlib

/-!
Shallow embedding of the Udio_Bulk_Downloader hierarchical discovery core:
the scroll-pagination engine (`SongExtractor.extractSongsFromView` together
with its helpers in `chrome_extension/modules/song-extractor.js`) and the
tree walker (`FolderMapper` in `modules/folder-mapper.js`).

DOM elements are abstracted into records carrying exactly the attributes the
source reads; the page environment visible to the scroll loop is a stream of
snapshots (one per loop iteration), which subsumes every possible behaviour
of the virtualized renderer.  All functions are structurally recursive so
that concrete runs evaluate inside the kernel.
-/

/-- A song record as assembled by `SongExtractor.extractSongData`.  The JS
object also receives a `folderPath` assignment later in
`FolderMapper._processLeafFolder`; no property considered here reads it, so
it is not carried. -/
structure Song where
  title : String
  url : String
  id : Option String
  duration : Option String
  imageUrl : Option String
  tags : List String
  plays : Option Int
  likes : Option Int
  isLiked : Bool
  isDisliked : Bool
  deriving DecidableEq, Repr

/-- The raw data `extractSongData` reads off one rendered element
(`_extractTitle`, `_extractUrl`, `_extractDuration`, ...).  `none` models a
missing attribute (JS `null`); empty strings model falsy values.  `throws`
models the DOM access raising, which the source catches per element. -/
structure RawElement where
  throws : Bool
  title : Option String
  url : Option String
  duration : Option String
  imageUrl : Option String
  tags : List String
  plays : Option Int
  likes : Option Int
  isLiked : Bool
  isDisliked : Bool
  deriving DecidableEq, Repr

/-- A song anchor as seen by `_extractFromLinks`: its own `href` and the
container found by `link.closest(...)` (`none` when no container). -/
structure SongLink where
  href : String
  container : Option RawElement
  deriving DecidableEq, Repr

/-- Snapshot of the page at one loop iteration: the rendered
`tr[class*="absolute"]` rows, the fallback `a[href*="/songs/"]` anchors, and
the scroll container metrics read in `extractSongsFromView`. -/
structure ScrollView where
  rows : List RawElement
  links : List SongLink
  scrollTop : Nat
  scrollHeight : Nat
  clientHeight : Nat
  deriving DecidableEq, Repr

/-- JS truthiness of an optional string: not `null` and not `""`. -/
def truthy : Option String → Bool
  | none => false
  | some s => s ≠ ""

/-- The `song.url.match(/\/songs\/([^/?]+)/)` capture: text after the first
occurrence of "/songs/" that is followed by at least one character other
than '/' or '?'. -/
def songIdOfUrl (url : String) : Option String :=
  match (url.splitOn "/songs/").tail.find?
      (fun part => (part.takeWhile (fun c => c ≠ '/' ∧ c ≠ '?')) ≠ "") with
  | some part => some (part.takeWhile (fun c => c ≠ '/' ∧ c ≠ '?'))
  | none => none

/-- Embedding of `SongExtractor.extractSongData`: builds the song object
from the element, returns `none` unless both title and url are truthy, and
on a raised error logs one warning and returns `none`.  The second
component counts warnings logged by this call. -/
def extractSongData (e : RawElement) : Option Song × Nat :=
  if e.throws then (none, 1)
  else if truthy e.title ∧ truthy e.url then
    (some { title := e.title.getD ""
            url := e.url.getD ""
            id := songIdOfUrl (e.url.getD "")
            duration := e.duration
            imageUrl := e.imageUrl
            tags := e.tags
            plays := e.plays
            likes := e.likes
            isLiked := e.isLiked
            isDisliked := e.isDisliked }, 0)
  else (none, 0)

/-- Accumulator threaded through `_extractFromRows` / `_extractFromLinks`:
the growing `songs` array, the `seenUrls` set, and the number of warnings
logged so far. -/
structure ExtractAcc where
  songs : List Song
  seenUrls : List String
  warningsLogged : Nat
  deriving DecidableEq, Repr

/-- Embedding of `SongExtractor._extractFromRows`: per row, extract; push
only when the song exists and its url is unseen. -/
def extractFromRows : List RawElement → ExtractAcc → ExtractAcc
  | [], acc => acc
  | r :: rs, acc =>
    let (os, w) := extractSongData r
    let acc := { acc with warningsLogged := acc.warningsLogged + w }
    match os with
    | some song =>
      if acc.seenUrls.contains song.url then extractFromRows rs acc
      else extractFromRows rs { acc with songs := acc.songs ++ [song]
                                         seenUrls := song.url :: acc.seenUrls }
    | none => extractFromRows rs acc

/-- Embedding of `SongExtractor._extractFromLinks`: per anchor, skip when
`link.href` is already seen; otherwise extract from its container and push
whenever a song comes back (the pushed `song.url` is added to the seen set
but is itself not re-checked against it). -/
def extractFromLinks : List SongLink → ExtractAcc → ExtractAcc
  | [], acc => acc
  | l :: ls, acc =>
    if acc.seenUrls.contains l.href then extractFromLinks ls acc
    else
      match l.container with
      | none => extractFromLinks ls acc
      | some e =>
        let (os, w) := extractSongData e
        let acc := { acc with warningsLogged := acc.warningsLogged + w }
        match os with
        | some song =>
          extractFromLinks ls { acc with songs := acc.songs ++ [song]
                                         seenUrls := song.url :: acc.seenUrls }
        | none => extractFromLinks ls acc

/-- The extraction step at the top of each scroll-loop iteration: the link
fallback runs exactly when no `tr[class*="absolute"]` rows are rendered. -/
def extractFromRowsOrLinks (v : ScrollView) (acc : ExtractAcc) : ExtractAcc :=
  if v.rows.isEmpty then extractFromLinks v.links acc
  else extractFromRows v.rows acc

/-- Reason a stop condition inside the scroll loop fired, in source order:
at-bottom with no new songs, scroll position stuck at bottom, or no new
songs for 10 attempts. -/
inductive StopReason where
  | atBottomNoNew
  | stuckAtBottom
  | noNewTimeout
  deriving DecidableEq, Repr

/-- Mutable state of the `extractSongsFromView` scroll loop, named after
the source locals; `scrollRequests` and `waitsMs` record the page
interactions issued (`scrollBy` amounts and `sleep` durations). -/
structure LoopState where
  songs : List Song
  seenUrls : List String
  warningsLogged : Nat
  previousCount : Nat
  noNewCount : Nat
  consecutiveNoChange : Nat
  attempts : Nat
  lastScrollTop : Nat
  scrollRequests : List Nat
  waitsMs : List Nat
  deriving DecidableEq, Repr

/-- The `maxAttempts` constant of `extractSongsFromView`. -/
def maxAttempts : Nat := 200

/-- Distance from the bottom of the scroll container, as the signed value
`scrollHeight - (scrollTop + clientHeight)` computed by the source. -/
def distanceFromBottom (v : ScrollView) : Int :=
  (v.scrollHeight : Int) - ((v.scrollTop : Int) + (v.clientHeight : Int))

/-- The source's `isAtBottom`: fewer than 50 units remain below the fold. -/
def isAtBottom (v : ScrollView) : Bool :=
  distanceFromBottom v < 50

/-- The extraction performed at the top of one loop iteration, on the
accumulator carried in the loop state. -/
def iterationAcc (v : ScrollView) (s : LoopState) : ExtractAcc :=
  extractFromRowsOrLinks v { songs := s.songs, seenUrls := s.seenUrls,
                             warningsLogged := s.warningsLogged }

/-- The source's `currentCount = songs.length` after this iteration's
extraction. -/
def currentCountOf (v : ScrollView) (s : LoopState) : Nat :=
  (iterationAcc v s).songs.length

/-- The updated `noNewCount`: incremented when the song count is unchanged
from the previous iteration, reset to 0 otherwise. -/
def noNewCountAfter (v : ScrollView) (s : LoopState) : Nat :=
  if currentCountOf v s = s.previousCount then s.noNewCount + 1 else 0

/-- The updated `consecutiveNoChange`: the source increments and resets it
under exactly the same test as `noNewCount` (song count unchanged). -/
def consecutiveNoChangeAfter (v : ScrollView) (s : LoopState) : Nat :=
  if currentCountOf v s = s.previousCount then s.consecutiveNoChange + 1 else 0

/-- The three in-loop stop conditions of `extractSongsFromView`, in source
order, on the freshly updated counters: (1) at bottom with
`noNewCount >= 5`; (2) scroll position equal to `lastScrollTop` with
`consecutiveNoChange >= 5` at bottom; (3) `noNewCount >= 10`. -/
def codeStopCheck (v : ScrollView) (s : LoopState) : Option StopReason :=
  if isAtBottom v ∧ noNewCountAfter v s ≥ 5 then some .atBottomNoNew
  else if v.scrollTop = s.lastScrollTop ∧ consecutiveNoChangeAfter v s ≥ 5 ∧ isAtBottom v then
    some .stuckAtBottom
  else if noNewCountAfter v s ≥ 10 then some .noNewTimeout
  else none

/-- The loop state right after extraction and counter update (the point at
which the stop conditions are tested). -/
def checkedState (v : ScrollView) (s : LoopState) : LoopState :=
  { s with songs := (iterationAcc v s).songs,
           seenUrls := (iterationAcc v s).seenUrls,
           warningsLogged := (iterationAcc v s).warningsLogged,
           noNewCount := noNewCountAfter v s,
           consecutiveNoChange := consecutiveNoChangeAfter v s }

/-- The source's size-scaled `scrollAmount`: 2000 once more than 100 songs
are known, else 1000. -/
def scrollAmountOf (v : ScrollView) (s : LoopState) : Nat :=
  if currentCountOf v s > 100 then 2000 else 1000

/-- The source's size-scaled `waitTime`: 1200 ms once more than 500 songs
are known, else 1000 ms. -/
def waitTimeOf (v : ScrollView) (s : LoopState) : Nat :=
  if currentCountOf v s > 500 then 1200 else 1000

/-- One body execution of the `while (attempts < maxAttempts)` loop of
`extractSongsFromView`: extract (rows, else anchors), read the metrics,
update the two stall counters, test the three in-loop stop conditions in
source order, and otherwise record the scroll and wait, update
`previousCount` / `lastScrollTop`, and increment `attempts`. -/
def loopBody (v : ScrollView) (s : LoopState) : Option StopReason × LoopState :=
  match codeStopCheck v s with
  | some r => (some r, checkedState v s)
  | none =>
    (none, { checkedState v s with
               previousCount := currentCountOf v s,
               lastScrollTop := v.scrollTop,
               scrollRequests := s.scrollRequests ++ [scrollAmountOf v s],
               waitsMs := s.waitsMs ++ [waitTimeOf v s],
               attempts := s.attempts + 1 })

/-- Fuel-indexed run of the scroll loop.  `extractSongsFromView` enters the
loop with `attempts = 0` and fuel `maxAttempts`; since each non-stopping
body execution increments `attempts` by exactly one (see
`loopBody_continue_attempts`), exhausting the fuel coincides with the
source's `attempts < maxAttempts` guard turning false.  The third component
counts body executions performed. -/
def scrollLoop (env : Nat → ScrollView) : Nat → LoopState → LoopState × Option StopReason × Nat
  | 0, s => (s, none, 0)
  | fuel + 1, s =>
    match loopBody (env s.attempts) s with
    | (some r, s') => (s', some r, 1)
    | (none, s') =>
      let (t, r, n) := scrollLoop env fuel s'
      (t, r, n + 1)

/-- The song cache of a `SongExtractor` instance (`this.cache`), a JS `Map`
from folder-path key to song array, in insertion order. -/
abbrev SongCache : Type := List (String × List Song)

/-- JS `Map.prototype.has`. -/
def cacheHas (c : SongCache) (k : String) : Bool :=
  c.any (fun p => p.1 = k)

/-- JS `Map.prototype.get` (`none` for a missing key). -/
def cacheGet (c : SongCache) (k : String) : Option (List Song) :=
  (c.find? (fun p => p.1 = k)).map (fun p => p.2)

/-- JS `Map.prototype.set`: update in place when the key exists, else
append. -/
def cacheSet (c : SongCache) (k : String) (v : List Song) : SongCache :=
  if cacheHas c k then c.map (fun p => if p.1 = k then (k, v) else p)
  else c ++ [(k, v)]

/-- The cache key computed by `extractSongsFromView`: the joined folder
path when one was passed, `"root"` otherwise. -/
def cacheKeyOf : Option (List String) → String
  | some path => String.intercalate "/" path
  | none => "root"

/-- Everything `extractSongsFromView` produces: the returned songs, the
updated cache, and the run's observable behaviour (iterations, stop reason,
cap warning, per-element warnings, page interactions). -/
structure CollectResult where
  songs : List Song
  cache : SongCache
  cacheHit : Bool
  iterations : Nat
  finalAttempts : Nat
  reason : Option StopReason
  cappedWarning : Bool
  warningsLogged : Nat
  scrollRequests : List Nat
  waitsMs : List Nat
  uiActions : Nat
  deriving DecidableEq, Repr

/-- The loop state at loop entry: all locals zeroed, `lastScrollTop` read
from the scroll container before the loop, and the initial 2000 ms settle
sleep recorded. -/
def initialLoopState (initialScrollTop : Nat) : LoopState :=
  { songs := [], seenUrls := [], warningsLogged := 0, previousCount := 0,
    noNewCount := 0, consecutiveNoChange := 0, attempts := 0,
    lastScrollTop := initialScrollTop, scrollRequests := [],
    waitsMs := [2000] }

/-- Embedding of `SongExtractor.extractSongsFromView`.  Cache check first
(returning with no page interaction on a hit); otherwise a 2000 ms settle
sleep, the scroll loop starting from the scroll container's current
position `initialScrollTop`, a warning when the attempt cap was reached, a
final `scrollTo(0, 0)`, and the result cached under the key before
returning.  `env n` is the page snapshot seen by the iteration entered with
`attempts = n`. -/
def extractSongsFromView (c : SongCache) (folderPath : Option (List String))
    (env : Nat → ScrollView) (initialScrollTop : Nat) : CollectResult :=
  match cacheGet c (cacheKeyOf folderPath) with
  | some cached =>
      { songs := cached, cache := c, cacheHit := true, iterations := 0,
        finalAttempts := 0, reason := none, cappedWarning := false,
        warningsLogged := 0, scrollRequests := [], waitsMs := [], uiActions := 0 }
  | none =>
      let (s, reason, iters) := scrollLoop env maxAttempts (initialLoopState initialScrollTop)
      { songs := s.songs,
        cache := cacheSet c (cacheKeyOf folderPath) s.songs,
        cacheHit := false,
        iterations := iters,
        finalAttempts := s.attempts,
        reason := reason,
        cappedWarning := s.attempts ≥ maxAttempts,
        warningsLogged := s.warningsLogged,
        scrollRequests := s.scrollRequests,
        waitsMs := s.waitsMs,
        uiActions := s.scrollRequests.length + s.waitsMs.length + 1 }

/-- A rendered folder-tree item as `FolderMapper._processFolderItem` reads
it: the `button[title]` title attribute (`none` when the button is
missing), whether an `Expand` button exists (`hasChildren`), the
`aria-expanded` state, the nested `[role="button"]` items enumerated after
expanding, and the page stream plus scroll position that
`extractSongsFromView` would see after this item is clicked as a leaf. -/
inductive TreeItem where
  | mk (title : Option String) (hasChildrenDom : Bool) (isExpandedDom : Bool)
       (children : List TreeItem) (leafEnv : Nat → ScrollView) (leafScrollTop : Nat)

/-- The folder data object built by `_processFolderItem`.  `songs` is
`none` for parent folders (the source never assigns the field there). -/
inductive FolderData where
  | mk (name : String) (path : List String) (hasChildren : Bool) (isLeaf : Bool)
       (subfolders : List FolderData) (songCount : Nat) (songs : Option (List Song))

def FolderData.name : FolderData → String
  | .mk n _ _ _ _ _ _ => n

def FolderData.path : FolderData → List String
  | .mk _ p _ _ _ _ _ => p

def FolderData.hasChildren : FolderData → Bool
  | .mk _ _ h _ _ _ _ => h

def FolderData.isLeaf : FolderData → Bool
  | .mk _ _ _ l _ _ _ => l

def FolderData.subfolders : FolderData → List FolderData
  | .mk _ _ _ _ s _ _ => s

def FolderData.songCount : FolderData → Nat
  | .mk _ _ _ _ _ c _ => c

def FolderData.songs : FolderData → Option (List Song)
  | .mk _ _ _ _ _ _ s => s

/-- The `structure` object owned by a `FolderMapper`. -/
structure LibStructure where
  folders : List FolderData
  rootSongs : List Song
  totalFolders : Nat
  mappedFolders : Nat
  totalSongs : Nat

/-- The `_createEmptyStructure` initializer. -/
def createEmptyStructure : LibStructure :=
  { folders := [], rootSongs := [], totalFolders := 0, mappedFolders := 0,
    totalSongs := 0 }

/-- Observable state of a `FolderMapper` instance together with its
collaborators: the shared `SongExtractor` cache, the traversal flag and
structure, the `storage.saveContentState` snapshots taken (with the
`inProgress` value saved), the `storage.clearContentState` calls, and the
page interactions and log/runtime messages issued. -/
structure MapperState where
  cache : SongCache
  inProgress : Bool
  struct : LibStructure
  savedStates : List (Bool × LibStructure)
  clearedStates : Nat
  uiClicks : Nat
  sleepsMs : List Nat
  uiScrollActions : Nat
  logWarnings : Nat
  progressMessages : Nat
  completionMessages : Nat
  errorMessages : Nat

/-- A fresh `FolderMapper` (constructor state). -/
def initialMapperState : MapperState :=
  { cache := [], inProgress := false, struct := createEmptyStructure,
    savedStates := [], clearedStates := 0, uiClicks := 0, sleepsMs := [],
    uiScrollActions := 0, logWarnings := 0, progressMessages := 0,
    completionMessages := 0, errorMessages := 0 }

/-- Fold a collect result into the mapper state: the shared cache is
replaced, the page interactions are accounted, and the collector's
per-element warnings plus its attempt-cap warning go to the logger. -/
def absorbCollect (st : MapperState) (r : CollectResult) : MapperState :=
  { st with cache := r.cache,
            uiScrollActions := st.uiScrollActions + r.uiActions,
            logWarnings := st.logWarnings + r.warningsLogged +
              (if r.cappedWarning then 1 else 0) }

mutual

/-- Embedding of `FolderMapper._processFolderItem` (with
`_processParentFolder` and `_processLeafFolder` inlined at their single
call sites).  A missing title button yields `none`.  A parent is expanded when
collapsed (one click, 1200 ms), children are processed recursively, and it
is collapsed again when it was initially collapsed (one click, 200 ms).  A
leaf is clicked (2500 ms) and its songs come from
`extractSongsFromView` called with no folder path. -/
def processFolderItem (item : TreeItem) (parentPath : List String)
    (st : MapperState) : MapperState × Option FolderData :=
  match item with
  | .mk title hasKids expanded children lenv ltop =>
    match title with
    | none => (st, none)
    | some folderName =>
      let currentPath := parentPath ++ [folderName]
      if hasKids then
        let st1 := if expanded then st
          else { st with uiClicks := st.uiClicks + 1,
                         sleepsMs := st.sleepsMs ++ [1200] }
        let st2 := { st1 with sleepsMs := st1.sleepsMs ++ [300] }
        let (st3, subs, cnt) := processFolderChildren children currentPath st2
        let st4 := if expanded then st3
          else { st3 with uiClicks := st3.uiClicks + 1,
                          sleepsMs := st3.sleepsMs ++ [200] }
        (st4, some (.mk folderName currentPath true false subs cnt none))
      else
        let st1 := { st with uiClicks := st.uiClicks + 1,
                             sleepsMs := st.sleepsMs ++ [2500] }
        let r := extractSongsFromView st1.cache none lenv ltop
        let st2 := absorbCollect st1 r
        let st3 := { st2 with struct :=
          { st2.struct with totalSongs := st2.struct.totalSongs + r.songs.length } }
        (st3, some (.mk folderName currentPath false true [] r.songs.length
          (some r.songs)))

/-- The child loop of `_processParentFolder`: accumulate the non-`none`
child data in order and the sum of their song counts. -/
def processFolderChildren (items : List TreeItem) (path : List String)
    (st : MapperState) : MapperState × List FolderData × Nat :=
  match items with
  | [] => (st, [], 0)
  | c :: cs =>
    let (st1, od) := processFolderItem c path st
    let (st2, rest, cnt) := processFolderChildren cs path st1
    (st2, match od with
          | some d => (d :: rest, d.songCount + cnt)
          | none => (rest, cnt))

end

/-- The `if (folderData) push` step of the top-level loop in
`startMapping`. -/
def pushFolder (st1 : MapperState) (od : Option FolderData) : MapperState :=
  match od with
  | some fd =>
    { st1 with struct :=
      { st1.struct with folders := st1.struct.folders ++ [fd] } }
  | none => st1

/-- One pass of the top-level loop body of `startMapping` on the item with
0-based index `i`: process the item, push its data when present, set
`mappedFolders` to `i + 1`, persist a `saveContentState` snapshot carrying
the current `inProgress` flag and structure, and emit a progress update. -/
def processTopLevelStep (item : TreeItem) (i : Nat) (st : MapperState) :
    MapperState :=
  let (st1, od) := processFolderItem item [] st
  let st2 := pushFolder st1 od
  let st3 := { st2 with struct := { st2.struct with mappedFolders := i + 1 } }
  { st3 with
    savedStates := st3.savedStates ++ [(st3.inProgress, st3.struct)],
    progressMessages := st3.progressMessages + 1 }

/-- The indexed loop over top-level items in `startMapping`. -/
def processTopLevel (items : List TreeItem) (i : Nat) (st : MapperState) :
    MapperState :=
  match items with
  | [] => st
  | item :: rest => processTopLevel rest (i + 1) (processTopLevelStep item i st)

/-- The part of `startMapping` between the `inProgress` guard and the
top-level loop, for a found tree container: raise `inProgress`, reset the
structure, record `totalFolders`, and run `_extractRootSongs` (which
stores the root songs when any were found). -/
def mapperRunBase (items : List TreeItem) (rootEnv : Nat → ScrollView)
    (rootScrollTop : Nat) (st : MapperState) : MapperState :=
  let st1 := { st with inProgress := true, struct := createEmptyStructure }
  let st2 := { st1 with struct :=
    { st1.struct with totalFolders := items.length } }
  let r := extractSongsFromView st2.cache none rootEnv rootScrollTop
  let st3 := absorbCollect st2 r
  if r.songs.length > 0 then
    { st3 with struct :=
      { st3.struct with rootSongs := r.songs,
                        totalSongs := st3.struct.totalSongs + r.songs.length } }
  else st3

/-- Embedding of `FolderMapper.startMapping`.  `dom` is the
`[role="tree"]` container's top-level items, `none` when the container is
absent (which throws, is logged and reported as an error, and leaves via
the `finally` block).  `rootEnv` / `rootScrollTop` are what the root-level
`extractSongsFromView` call sees.  When a traversal is already in
progress the call only logs a warning and returns. -/
def startMapping (dom : Option (List TreeItem)) (rootEnv : Nat → ScrollView)
    (rootScrollTop : Nat) (st : MapperState) :
    MapperState × Option LibStructure :=
  if st.inProgress then
    ({ st with logWarnings := st.logWarnings + 1 }, none)
  else
    match dom with
    | none =>
      ({ st with struct := createEmptyStructure,
                 errorMessages := st.errorMessages + 1, inProgress := false,
                 clearedStates := st.clearedStates + 1 }, none)
    | some topLevelItems =>
      let st5 := processTopLevel topLevelItems 0
        (mapperRunBase topLevelItems rootEnv rootScrollTop st)
      ({ st5 with completionMessages := st5.completionMessages + 1,
                  inProgress := false,
                  clearedStates := st5.clearedStates + 1 }, some st5.struct)

/-- A well-formed rendered element with the given title and url and no
further attributes. -/
def sampleElement (t u : String) : RawElement :=
  { throws := false, title := some t, url := some u, duration := none,
    imageUrl := none, tags := [], plays := none, likes := none,
    isLiked := false, isDisliked := false }

/-- An element whose field reads raise (caught inside `extractSongData`). -/
def throwingElement : RawElement :=
  { throws := true, title := none, url := none, duration := none,
    imageUrl := none, tags := [], plays := none, likes := none,
    isLiked := false, isDisliked := false }

/-- The song `extractSongData` produces for `sampleElement t u`. -/
def sampleSong (t u : String) : Song :=
  { title := t, url := u, id := songIdOfUrl u, duration := none,
    imageUrl := none, tags := [], plays := none, likes := none,
    isLiked := false, isDisliked := false }

/-- A page snapshot whose scroll container is already at the bottom
(`scrollHeight = scrollTop + clientHeight`) showing the given rows. -/
def bottomView (rows : List RawElement) : ScrollView :=
  { rows := rows, links := [], scrollTop := 0, scrollHeight := 100,
    clientHeight := 100 }

/-- A page that never changes. -/
def constEnv (v : ScrollView) : Nat → ScrollView := fun _ => v

/-- A collapsed leaf tree item whose selected view shows the given rows. -/
def leafItem (name : String) (rows : List RawElement) : TreeItem :=
  .mk (some name) false false [] (constEnv (bottomView rows)) 0

/-- A collapsed parent tree item with the given nested items. -/
def parentItem (name : String) (kids : List TreeItem) : TreeItem :=
  .mk (some name) true false kids (constEnv (bottomView [])) 0

/-- Modelled from the spec: the claim's ordered in-loop stop conditions,
first match winning — (1) at bottom and `consecutiveNoNewCount >= 5`;
(2) `consecutiveStuckCount >= 5` and at bottom; (3)
`consecutiveNoNewCount >= 10` regardless of bottom state.  Condition (4),
the `maxAttempts` hard cap, is the loop guard and is treated separately. -/
def claimStopCheck (atBottom : Bool) (noNew stuck : Nat) : Option StopReason :=
  if atBottom ∧ noNew ≥ 5 then some .atBottomNoNew
  else if stuck ≥ 5 ∧ atBottom then some .stuckAtBottom
  else if noNew ≥ 10 then some .noNewTimeout
  else none

theorem loopBody_fst (v : ScrollView) (s : LoopState) :
    (loopBody v s).1 = codeStopCheck v s := by
  unfold loopBody
  cases codeStopCheck v s <;> rfl

theorem loopBody_stop_state (v : ScrollView) (s : LoopState) (r : StopReason)
    (h : codeStopCheck v s = some r) : loopBody v s = (some r, checkedState v s) := by
  unfold loopBody
  rw [h]

theorem loopBody_continue_state (v : ScrollView) (s : LoopState)
    (h : codeStopCheck v s = none) :
    loopBody v s =
      (none, { checkedState v s with
                 previousCount := currentCountOf v s,
                 lastScrollTop := v.scrollTop,
                 scrollRequests := s.scrollRequests ++ [scrollAmountOf v s],
                 waitsMs := s.waitsMs ++ [waitTimeOf v s],
                 attempts := s.attempts + 1 }) := by
  unfold loopBody
  rw [h]

theorem loopBody_continue_attempts (v : ScrollView) (s : LoopState)
    (h : (loopBody v s).1 = none) : (loopBody v s).2.attempts = s.attempts + 1 := by
  rw [loopBody_fst] at h
  rw [loopBody_continue_state v s h]

theorem loopBody_stop_attempts (v : ScrollView) (s : LoopState) (r : StopReason)
    (h : (loopBody v s).1 = some r) : (loopBody v s).2.attempts = s.attempts := by
  rw [loopBody_fst] at h
  rw [loopBody_stop_state v s r h]
  rfl

/-- Both stall counters are always updated by the same rule (reset on a
count change, increment otherwise), in both the stop and continue exits. -/
theorem loopBody_counters (v : ScrollView) (s : LoopState) :
    (loopBody v s).2.noNewCount = noNewCountAfter v s ∧
    (loopBody v s).2.consecutiveNoChange = consecutiveNoChangeAfter v s := by
  unfold loopBody
  cases codeStopCheck v s <;> exact ⟨rfl, rfl⟩

theorem counters_eq_after (v : ScrollView) (s : LoopState)
    (h : s.noNewCount = s.consecutiveNoChange) :
    noNewCountAfter v s = consecutiveNoChangeAfter v s := by
  unfold noNewCountAfter consecutiveNoChangeAfter
  rw [h]

/-- On every state whose two stall counters agree (an invariant of all
reachable loop states), the source's stop-condition cascade computes
exactly the claim's ordered cascade: the extra
`scrollTop == lastScrollTop` conjunct in the source's second test can
never change the outcome because its remaining conjuncts already imply
the first test. -/
theorem codeStopCheck_eq_claim (v : ScrollView) (s : LoopState)
    (h : s.noNewCount = s.consecutiveNoChange) :
    codeStopCheck v s =
      claimStopCheck (isAtBottom v) (noNewCountAfter v s) (consecutiveNoChangeAfter v s) := by
  have hc := counters_eq_after v s h
  unfold codeStopCheck claimStopCheck
  rw [← hc]
  split_ifs <;> simp_all <;> omega

theorem scrollLoop_none_attempts (env : Nat → ScrollView) (fuel : Nat)
    (s : LoopState) (h : (scrollLoop env fuel s).2.1 = none) :
    (scrollLoop env fuel s).1.attempts = s.attempts + fuel := by
  induction fuel generalizing s with
  | zero => rfl
  | succ n ih =>
    unfold scrollLoop at h ⊢
    cases hb : loopBody (env s.attempts) s with
    | mk r s' =>
      rw [hb] at h
      cases r with
      | some r0 => simp at h
      | none =>
        show (scrollLoop env n s').1.attempts = s.attempts + (n + 1)
        have ha : s'.attempts = s.attempts + 1 := by
          have hc := loopBody_continue_attempts (env s.attempts) s (by rw [hb])
          rw [hb] at hc
          exact hc
        have ht : (scrollLoop env n s').1.attempts = s'.attempts + n := ih s' h
        omega

theorem scrollLoop_some_attempts (env : Nat → ScrollView) (fuel : Nat)
    (s : LoopState) (r : StopReason) (h : (scrollLoop env fuel s).2.1 = some r) :
    (scrollLoop env fuel s).1.attempts < s.attempts + fuel := by
  induction fuel generalizing s with
  | zero => exact absurd h (by simp [scrollLoop])
  | succ n ih =>
    unfold scrollLoop at h ⊢
    cases hb : loopBody (env s.attempts) s with
    | mk r0 s' =>
      rw [hb] at h
      cases r0 with
      | some r1 =>
        show s'.attempts < s.attempts + (n + 1)
        have hc := loopBody_stop_attempts (env s.attempts) s r1 (by rw [hb])
        rw [hb] at hc
        have hc2 : s'.attempts = s.attempts := hc
        omega
      | none =>
        show (scrollLoop env n s').1.attempts < s.attempts + (n + 1)
        have ha : s'.attempts = s.attempts + 1 := by
          have hc := loopBody_continue_attempts (env s.attempts) s (by rw [hb])
          rw [hb] at hc
          exact hc
        have ht : (scrollLoop env n s').1.attempts < s'.attempts + n := ih s' h
        omega

theorem scrollLoop_iters_le (env : Nat → ScrollView) (fuel : Nat)
    (s : LoopState) : (scrollLoop env fuel s).2.2 ≤ fuel := by
  induction fuel generalizing s with
  | zero => exact Nat.le_refl 0
  | succ n ih =>
    unfold scrollLoop
    cases hb : loopBody (env s.attempts) s with
    | mk r0 s' =>
      cases r0 with
      | some r1 => show 1 ≤ n + 1; omega
      | none =>
        show (scrollLoop env n s').2.2 + 1 ≤ n + 1
        have ht := ih s'
        omega

theorem extract_miss_eq (c : SongCache) (fp : Option (List String))
    (env : Nat → ScrollView) (itop : Nat)
    (hg : cacheGet c (cacheKeyOf fp) = none) :
    extractSongsFromView c fp env itop =
      { songs := (scrollLoop env maxAttempts (initialLoopState itop)).1.songs,
        cache := cacheSet c (cacheKeyOf fp)
          (scrollLoop env maxAttempts (initialLoopState itop)).1.songs,
        cacheHit := false,
        iterations := (scrollLoop env maxAttempts (initialLoopState itop)).2.2,
        finalAttempts := (scrollLoop env maxAttempts (initialLoopState itop)).1.attempts,
        reason := (scrollLoop env maxAttempts (initialLoopState itop)).2.1,
        cappedWarning := decide
          ((scrollLoop env maxAttempts (initialLoopState itop)).1.attempts ≥ maxAttempts),
        warningsLogged := (scrollLoop env maxAttempts (initialLoopState itop)).1.warningsLogged,
        scrollRequests := (scrollLoop env maxAttempts (initialLoopState itop)).1.scrollRequests,
        waitsMs := (scrollLoop env maxAttempts (initialLoopState itop)).1.waitsMs,
        uiActions :=
          (scrollLoop env maxAttempts (initialLoopState itop)).1.scrollRequests.length +
          (scrollLoop env maxAttempts (initialLoopState itop)).1.waitsMs.length + 1 } := by
  unfold extractSongsFromView
  rw [hg]

/-- Claim C1: in every iteration of the collect loop the stop conditions
are checked in the claimed fixed order with the first match winning —
(1) at bottom with `noNewCount >= 5` gives normal completion, (2)
`consecutiveStuckCount >= 5` at bottom gives stalled completion, (3)
`noNewCount >= 10` completes regardless of bottom state — and when none
fires the loop scrolls, waits, and increments `attemptCount`; condition
(4), the `maxAttempts = 200` hard cap, stops the loop exactly when the
three in-loop conditions never fire for the whole attempt budget, in which
case the cap warning is emitted (and it is emitted only then).  The
hypothesis (the two stall counters agree) holds in every reachable loop
state, since both counters start at 0 and are updated identically. -/
theorem spec_C1 (v : ScrollView) (s : LoopState)
    (h : s.noNewCount = s.consecutiveNoChange) :
    (loopBody v s).1 =
      claimStopCheck (isAtBottom v) (noNewCountAfter v s) (consecutiveNoChangeAfter v s) ∧
    ((loopBody v s).1 = none →
      (loopBody v s).2.attempts = s.attempts + 1 ∧
      (loopBody v s).2.scrollRequests = s.scrollRequests ++ [scrollAmountOf v s] ∧
      (loopBody v s).2.waitsMs = s.waitsMs ++ [waitTimeOf v s]) ∧
    (∀ env fuel, (scrollLoop env fuel s).2.1 = none →
      (scrollLoop env fuel s).1.attempts = s.attempts + fuel) ∧
    (∀ c fp env itop, cacheGet c (cacheKeyOf fp) = none →
      ((extractSongsFromView c fp env itop).cappedWarning = true ↔
        (extractSongsFromView c fp env itop).reason = none)) := by
  refine ⟨?_, ?_, ?_, ?_⟩
  · rw [loopBody_fst]
    exact codeStopCheck_eq_claim v s h
  · intro h0
    rw [loopBody_fst] at h0
    rw [loopBody_continue_state v s h0]
    exact ⟨rfl, rfl, rfl⟩
  · intro env fuel h0
    exact scrollLoop_none_attempts env fuel s h0
  · intro c fp env itop hg
    rw [extract_miss_eq c fp env itop hg]
    constructor
    · intro hcap
      rcases hr : (scrollLoop env maxAttempts (initialLoopState itop)).2.1 with _ | r0
      · rfl
      · exfalso
        have hlt := scrollLoop_some_attempts env maxAttempts (initialLoopState itop) r0 hr
        have hcap2 : (scrollLoop env maxAttempts (initialLoopState itop)).1.attempts ≥
            maxAttempts := of_decide_eq_true hcap
        have h0 : (initialLoopState itop).attempts = 0 := rfl
        omega
    · intro hr
      have he := scrollLoop_none_attempts env maxAttempts (initialLoopState itop) hr
      show decide ((scrollLoop env maxAttempts (initialLoopState itop)).1.attempts ≥
        maxAttempts) = true
      rw [decide_eq_true_iff]
      have h0 : (initialLoopState itop).attempts = 0 := rfl
      omega

/-- Claim C1 witness: the theorem applied at a concrete page snapshot and
loop state whose stall counters agree. -/
theorem spec_C1_witness :
    ((loopBody (bottomView []) (initialLoopState 0)).1 =
      claimStopCheck (isAtBottom (bottomView []))
        (noNewCountAfter (bottomView []) (initialLoopState 0))
        (consecutiveNoChangeAfter (bottomView []) (initialLoopState 0)) ∧
    ((loopBody (bottomView []) (initialLoopState 0)).1 = none →
      (loopBody (bottomView []) (initialLoopState 0)).2.attempts =
        (initialLoopState 0).attempts + 1 ∧
      (loopBody (bottomView []) (initialLoopState 0)).2.scrollRequests =
        (initialLoopState 0).scrollRequests ++
          [scrollAmountOf (bottomView []) (initialLoopState 0)] ∧
      (loopBody (bottomView []) (initialLoopState 0)).2.waitsMs =
        (initialLoopState 0).waitsMs ++
          [waitTimeOf (bottomView []) (initialLoopState 0)]) ∧
    (∀ env fuel, (scrollLoop env fuel (initialLoopState 0)).2.1 = none →
      (scrollLoop env fuel (initialLoopState 0)).1.attempts =
        (initialLoopState 0).attempts + fuel) ∧
    (∀ c fp env itop, cacheGet c (cacheKeyOf fp) = none →
      ((extractSongsFromView c fp env itop).cappedWarning = true ↔
        (extractSongsFromView c fp env itop).reason = none))) :=
  spec_C1 (bottomView []) (initialLoopState 0) rfl

/-- Claim C3: for every adapter behaviour (every page-snapshot stream,
including one that always surfaces new records and never reports being at
the bottom), `extractSongsFromView` performs at most `maxAttempts = 200`
loop iterations; it is a total function, so it always returns. -/
theorem spec_C3 (c : SongCache) (fp : Option (List String))
    (env : Nat → ScrollView) (itop : Nat) :
    (extractSongsFromView c fp env itop).iterations ≤ maxAttempts := by
  cases hg : cacheGet c (cacheKeyOf fp) with
  | some l =>
    unfold extractSongsFromView
    rw [hg]
    exact Nat.zero_le _
  | none =>
    rw [extract_miss_eq c fp env itop hg]
    exact scrollLoop_iters_le env maxAttempts (initialLoopState itop)

/-- A loop state whose previous scroll position was 0 and whose counters
are zero, paired below with a snapshot scrolled to position 10. -/
def c4State : LoopState := initialLoopState 0

/-- A snapshot whose scroll position (10) differs from the position
recorded in `c4State.lastScrollTop` (0) while the rendered song count is
unchanged (still zero rows). -/
def c4View : ScrollView :=
  { rows := [], links := [], scrollTop := 10, scrollHeight := 100,
    clientHeight := 100 }

/-- Claim C4 counterexample: an iteration in which the scroll position
changed (10 against a recorded 0) yet the source still increments
`consecutiveNoChange` (the claim's `consecutiveStuckCount`), because the
source keys both counters on the song count alone. -/
theorem spec_C4_counterexample :
    c4View.scrollTop ≠ c4State.lastScrollTop ∧
    (loopBody c4View c4State).2.consecutiveNoChange =
      c4State.consecutiveNoChange + 1 := by
  exact ⟨by decide, rfl⟩

/-- Claim C4 as amended: in each iteration, `consecutiveNoNewCount` is
reset to 0 when the song count changed (new items were found) and
incremented otherwise; `consecutiveStuckCount` (`consecutiveNoChange` in
the source) is updated by exactly the same song-count rule, not by
whether the scroll position and rendered-content extent changed. -/
theorem spec_C4 (v : ScrollView) (s : LoopState) :
    (loopBody v s).2.noNewCount =
      (if currentCountOf v s = s.previousCount then s.noNewCount + 1 else 0) ∧
    (loopBody v s).2.consecutiveNoChange =
      (if currentCountOf v s = s.previousCount then s.consecutiveNoChange + 1 else 0) := by
  have hlb := loopBody_counters v s
  unfold noNewCountAfter consecutiveNoChangeAfter at hlb
  exact hlb

/-- The state bump `_extractFromRows` makes for a row whose extraction
raises: one warning logged, nothing else. -/
def warningBump (acc : ExtractAcc) : ExtractAcc :=
  { acc with warningsLogged := acc.warningsLogged + 1 }

/-- Claim C8: a failure while extracting a single record is caught, logged
as one warning, and that record skipped, after which the remaining rows
are processed normally — extraction (and hence the pagination loop, which
calls it) is never aborted by a per-record failure. -/
theorem spec_C8 (pre post : List RawElement) (e : RawElement)
    (acc : ExtractAcc) (he : e.throws = true) :
    extractFromRows (pre ++ e :: post) acc =
      extractFromRows post (warningBump (extractFromRows pre acc)) := by
  have h1 : extractSongData e = (none, 1) := by
    unfold extractSongData
    rw [he]
    rfl
  induction pre generalizing acc with
  | nil =>
    show extractFromRows (e :: post) acc =
      extractFromRows post (warningBump (extractFromRows [] acc))
    simp only [extractFromRows, h1]
    rfl
  | cons r rs ih =>
    show extractFromRows (r :: (rs ++ e :: post)) acc =
      extractFromRows post (warningBump (extractFromRows (r :: rs) acc))
    simp only [extractFromRows]
    cases hx : extractSongData r with
    | mk os w =>
      cases os with
      | some song =>
        simp only [hx]
        by_cases hseen : acc.seenUrls.contains song.url = true
        · rw [if_pos hseen, if_pos hseen]
          exact ih _
        · rw [if_neg hseen, if_neg hseen]
          exact ih _
      | none =>
        simp only [hx]
        exact ih _

/-- The count invariant on a produced folder-data tree: a parent's
`songCount` is the sum of its subfolders' counts (recursively), a leaf's
`songCount` is the length of its `songs` list. -/
inductive CountOk : FolderData → Prop where
  | leaf : ∀ fd : FolderData, fd.hasChildren = false →
      fd.songCount = (fd.songs.getD []).length → CountOk fd
  | parent : ∀ fd : FolderData, fd.hasChildren = true →
      fd.songCount = (fd.subfolders.map FolderData.songCount).sum →
      (∀ sub ∈ fd.subfolders, CountOk sub) → CountOk fd

/-- The count invariant for the optional result of `_processFolderItem`
(nothing to check when the item was skipped). -/
def OptCountOk : Option FolderData → Prop
  | none => True
  | some fd => CountOk fd

mutual

theorem processFolderItem_frame : ∀ (item : TreeItem) (pp : List String)
    (st : MapperState),
    (processFolderItem item pp st).1.savedStates = st.savedStates ∧
    (processFolderItem item pp st).1.inProgress = st.inProgress ∧
    (processFolderItem item pp st).1.struct.folders = st.struct.folders
  | .mk title hasKids expanded children lenv ltop, pp, st => by
    cases title with
    | none => exact ⟨rfl, rfl, rfl⟩
    | some nm =>
      cases hasKids with
      | true =>
        have h2 := processFolderChildren_frame children (pp ++ [nm])
          (if expanded then { st with sleepsMs := st.sleepsMs ++ [300] }
           else { st with uiClicks := st.uiClicks + 1,
                          sleepsMs := (st.sleepsMs ++ [1200]) ++ [300] })
        cases expanded with
        | true => exact ⟨h2.1, h2.2.1, h2.2.2⟩
        | false => exact ⟨h2.1, h2.2.1, h2.2.2⟩
      | false => exact ⟨rfl, rfl, rfl⟩

theorem processFolderChildren_frame : ∀ (items : List TreeItem)
    (p : List String) (st : MapperState),
    (processFolderChildren items p st).1.savedStates = st.savedStates ∧
    (processFolderChildren items p st).1.inProgress = st.inProgress ∧
    (processFolderChildren items p st).1.struct.folders = st.struct.folders
  | [], _, st => ⟨rfl, rfl, rfl⟩
  | c :: cs, p, st => by
    have h1 := processFolderItem_frame c p st
    have h2 := processFolderChildren_frame cs p (processFolderItem c p st).1
    exact ⟨h2.1.trans h1.1, h2.2.1.trans h1.2.1, h2.2.2.trans h1.2.2⟩

end

theorem processFolderChildren_cons_eq (c : TreeItem) (cs : List TreeItem)
    (p : List String) (st : MapperState) :
    processFolderChildren (c :: cs) p st =
      ((processFolderChildren cs p (processFolderItem c p st).1).1,
       match (processFolderItem c p st).2 with
       | some d =>
         (d :: (processFolderChildren cs p (processFolderItem c p st).1).2.1,
          d.songCount + (processFolderChildren cs p (processFolderItem c p st).1).2.2)
       | none => (processFolderChildren cs p (processFolderItem c p st).1).2) := rfl

mutual

theorem processFolderItem_countOk : ∀ (item : TreeItem) (pp : List String)
    (st : MapperState), OptCountOk (processFolderItem item pp st).2
  | .mk title hasKids expanded children lenv ltop, pp, st => by
    cases title with
    | none => exact trivial
    | some nm =>
      cases hasKids with
      | true =>
        have h2 := processFolderChildren_countOk children (pp ++ [nm])
          (if expanded then { st with sleepsMs := st.sleepsMs ++ [300] }
           else { st with uiClicks := st.uiClicks + 1,
                          sleepsMs := (st.sleepsMs ++ [1200]) ++ [300] })
        cases expanded with
        | true =>
          exact CountOk.parent _ rfl h2.2 h2.1
        | false =>
          exact CountOk.parent _ rfl h2.2 h2.1
      | false =>
        exact CountOk.leaf _ rfl rfl

theorem processFolderChildren_countOk : ∀ (items : List TreeItem)
    (p : List String) (st : MapperState),
    (∀ d ∈ (processFolderChildren items p st).2.1, CountOk d) ∧
    (processFolderChildren items p st).2.2 =
      ((processFolderChildren items p st).2.1.map FolderData.songCount).sum
  | [], _, st => ⟨fun d hd => absurd hd (List.not_mem_nil d), rfl⟩
  | c :: cs, p, st => by
    have h1 := processFolderItem_countOk c p st
    have h2 := processFolderChildren_countOk cs p (processFolderItem c p st).1
    rw [processFolderChildren_cons_eq]
    cases ho : (processFolderItem c p st).2 with
    | none =>
      simpa using h2
    | some d =>
      rw [ho] at h1
      simp only [OptCountOk] at h1
      constructor
      · intro x hx
        rcases List.mem_cons.mp hx with hx1 | hx2
        · rw [hx1]; exact h1
        · exact h2.1 x hx2
      · simp only [List.map_cons, List.sum_cons]
        rw [h2.2]

end

theorem pushFolder_savedStates (st1 : MapperState) (od : Option FolderData) :
    (pushFolder st1 od).savedStates = st1.savedStates := by
  cases od <;> rfl

theorem pushFolder_inProgress (st1 : MapperState) (od : Option FolderData) :
    (pushFolder st1 od).inProgress = st1.inProgress := by
  cases od <;> rfl

theorem pushFolder_mem (st1 : MapperState) (od : Option FolderData)
    (fd : FolderData) (h : fd ∈ (pushFolder st1 od).struct.folders) :
    fd ∈ st1.struct.folders ∨ od = some fd := by
  cases od with
  | none => exact Or.inl h
  | some d =>
    rcases List.mem_append.mp h with h1 | h2
    · exact Or.inl h1
    · exact Or.inr (by rw [List.mem_singleton.mp h2])

theorem processTopLevelStep_spec (item : TreeItem) (i : Nat) (st : MapperState) :
    (processTopLevelStep item i st).inProgress = st.inProgress ∧
    (processTopLevelStep item i st).savedStates.length = st.savedStates.length + 1 ∧
    (∀ p ∈ (processTopLevelStep item i st).savedStates,
      p ∈ st.savedStates ∨ p.1 = st.inProgress) ∧
    (∀ fd ∈ (processTopLevelStep item i st).struct.folders,
      fd ∈ st.struct.folders ∨ CountOk fd) := by
  have hf := processFolderItem_frame item [] st
  have hk := processFolderItem_countOk item [] st
  have hsv : (processTopLevelStep item i st).savedStates =
      st.savedStates ++
        [((pushFolder (processFolderItem item [] st).1
            (processFolderItem item [] st).2).inProgress,
          { (pushFolder (processFolderItem item [] st).1
              (processFolderItem item [] st).2).struct with
              mappedFolders := i + 1 })] := by
    show (pushFolder (processFolderItem item [] st).1
        (processFolderItem item [] st).2).savedStates ++ _ = _
    rw [pushFolder_savedStates, hf.1]
  have hip : (pushFolder (processFolderItem item [] st).1
      (processFolderItem item [] st).2).inProgress = st.inProgress := by
    rw [pushFolder_inProgress, hf.2.1]
  refine ⟨hip, ?_, ?_, ?_⟩
  · rw [hsv]
    simp
  · intro p hp
    rw [hsv] at hp
    rcases List.mem_append.mp hp with h1 | h2
    · exact Or.inl h1
    · right
      rw [List.mem_singleton.mp h2, hip]
  · intro fd hfd
    have hfd2 : fd ∈ (pushFolder (processFolderItem item [] st).1
        (processFolderItem item [] st).2).struct.folders := hfd
    rcases pushFolder_mem _ _ fd hfd2 with h1 | h2
    · rw [hf.2.2] at h1
      exact Or.inl h1
    · right
      rw [h2] at hk
      exact hk

theorem processTopLevel_spec : ∀ (items : List TreeItem) (i : Nat)
    (st : MapperState),
    (processTopLevel items i st).inProgress = st.inProgress ∧
    (processTopLevel items i st).savedStates.length =
      st.savedStates.length + items.length ∧
    (∀ p ∈ (processTopLevel items i st).savedStates,
      p ∈ st.savedStates ∨ p.1 = st.inProgress) ∧
    (∀ fd ∈ (processTopLevel items i st).struct.folders,
      fd ∈ st.struct.folders ∨ CountOk fd)
  | [], i, st => ⟨rfl, rfl, fun p hp => Or.inl hp, fun fd hfd => Or.inl hfd⟩
  | item :: rest, i, st => by
    have hstep := processTopLevelStep_spec item i st
    have ih := processTopLevel_spec rest (i + 1) (processTopLevelStep item i st)
    refine ⟨ih.1.trans hstep.1, ?_, ?_, ?_⟩
    · show (processTopLevel rest (i + 1) (processTopLevelStep item i st)).savedStates.length = _
      rw [ih.2.1, hstep.2.1]
      simp [List.length_cons]
      omega
    · intro p hp
      rcases ih.2.2.1 p hp with h1 | h2
      · rcases hstep.2.2.1 p h1 with h3 | h4
        · exact Or.inl h3
        · exact Or.inr h4
      · rw [h2, hstep.1]
        exact Or.inr rfl
    · intro fd hfd
      rcases ih.2.2.2 fd hfd with h1 | h2
      · exact hstep.2.2.2 fd h1
      · exact Or.inr h2

theorem mapperRunBase_facts (items : List TreeItem) (env : Nat → ScrollView)
    (itop : Nat) (st : MapperState) :
    (mapperRunBase items env itop st).struct.folders = [] ∧
    (mapperRunBase items env itop st).inProgress = true ∧
    (mapperRunBase items env itop st).savedStates = st.savedStates := by
  unfold mapperRunBase
  dsimp only
  split <;> exact ⟨rfl, rfl, rfl⟩

/-- The count invariant over a whole `startMapping` result (trivially true
for the guarded and error exits, which return no structure). -/
def AllCountOk : Option LibStructure → Prop
  | none => True
  | some s => ∀ fd ∈ s.folders, CountOk fd

/-- Claim C6: for every node in the structure returned by `startMapping`,
a node with children has `songCount` equal to the sum of its children's
`songCount`, and a leaf has `songCount` equal to the length of its song
list (recursively, via `CountOk`). -/
theorem spec_C6 (dom : Option (List TreeItem)) (env : Nat → ScrollView)
    (itop : Nat) (st : MapperState) :
    AllCountOk (startMapping dom env itop st).2 := by
  unfold startMapping
  cases hp : st.inProgress with
  | true => exact trivial
  | false =>
    cases dom with
    | none => exact trivial
    | some items =>
      show AllCountOk (some (processTopLevel items 0
        (mapperRunBase items env itop st)).struct)
      intro fd hfd
      rcases (processTopLevel_spec items 0
        (mapperRunBase items env itop st)).2.2.2 fd hfd with h1 | h2
      · rw [(mapperRunBase_facts items env itop st).1] at h1
        exact absurd h1 (List.not_mem_nil fd)
      · exact h2

/-- A constant root-level page: one rendered row ("R", url "r1"), already
at the bottom. -/
def rootEnvR : Nat → ScrollView := constEnv (bottomView [sampleElement "R" "r1"])

/-- One collapsed parent folder "P" holding two leaf folders; processing
it completes three nodes (the parent and both nested children). -/
def c9Dom : Option (List TreeItem) :=
  some [parentItem "P" [leafItem "CA" [], leafItem "CB" []]]

/-- Claim C9 counterexample: on a tree whose single top-level folder
resolves three nodes (itself plus two nested leaves), exactly one
persistence snapshot is taken — nested node completions do not trigger
`saveContentState`, contradicting a save after every node. -/
theorem spec_C9_counterexample :
    (startMapping c9Dom rootEnvR 0 initialMapperState).1.savedStates.length = 1 ∧
    (startMapping c9Dom rootEnvR 0 initialMapperState).2.map
      (fun s => s.folders.map (fun f => f.subfolders.length)) = some [2] := by
  exact ⟨rfl, rfl⟩

/-- Claim C9 as amended: the Tree Walker persists a snapshot once per
top-level folder (after it completes, with `mappedFolders` updated), and
every snapshot taken during the walk records `inProgress = true`; nodes
resolved during recursion do not trigger additional saves, so an
interrupted run can resume only from the last completed top-level
folder. -/
theorem spec_C9 (items : List TreeItem) (env : Nat → ScrollView) (itop : Nat)
    (st : MapperState) (h : st.inProgress = false) :
    (startMapping (some items) env itop st).1.savedStates.length =
      st.savedStates.length + items.length ∧
    ∀ p ∈ (startMapping (some items) env itop st).1.savedStates,
      p ∈ st.savedStates ∨ p.1 = true := by
  have hb := mapperRunBase_facts items env itop st
  have hs := processTopLevel_spec items 0 (mapperRunBase items env itop st)
  unfold startMapping
  rw [h]
  constructor
  · show (processTopLevel items 0 (mapperRunBase items env itop st)).savedStates.length = _
    rw [hs.2.1, hb.2.2]
  · intro p hp
    have hp2 : p ∈ (processTopLevel items 0
        (mapperRunBase items env itop st)).savedStates := hp
    rcases hs.2.2.1 p hp2 with h1 | h2
    · rw [hb.2.2] at h1
      exact Or.inl h1
    · rw [hb.2.1] at h2
      exact Or.inr h2

/-- Claim C9 witness: the amended statement at the concrete three-node
tree, discharging the not-in-progress hypothesis. -/
theorem spec_C9_witness :
    (startMapping (some [parentItem "P" [leafItem "CA" [], leafItem "CB" []]])
        rootEnvR 0 initialMapperState).1.savedStates.length =
      initialMapperState.savedStates.length +
        [parentItem "P" [leafItem "CA" [], leafItem "CB" []]].length ∧
    ∀ p ∈ (startMapping (some [parentItem "P" [leafItem "CA" [], leafItem "CB" []]])
        rootEnvR 0 initialMapperState).1.savedStates,
      p ∈ initialMapperState.savedStates ∨ p.1 = true :=
  spec_C9 [parentItem "P" [leafItem "CA" [], leafItem "CB" []]] rootEnvR 0
    initialMapperState rfl

/-- Claim C10: invoking `startMapping` while a traversal is already in
progress returns immediately with no structure, the only state change
being one logged warning — traversal state, accumulated structure, cache,
persistence and page-interaction counters are all untouched. -/
theorem spec_C10 (dom : Option (List TreeItem)) (env : Nat → ScrollView)
    (itop : Nat) (st : MapperState) (h : st.inProgress = true) :
    startMapping dom env itop st =
      ({ st with logWarnings := st.logWarnings + 1 }, none) := by
  unfold startMapping
  cases hb : st.inProgress with
  | true => rfl
  | false =>
    rw [hb] at h
    exact absurd h (by simp)

/-- Claim C10 witness: a busy mapper state, with the theorem applied. -/
theorem spec_C10_witness :
    startMapping none rootEnvR 0 { initialMapperState with inProgress := true } =
      ({ { initialMapperState with inProgress := true } with
          logWarnings :=
            { initialMapperState with inProgress := true }.logWarnings + 1 },
        none) :=
  spec_C10 none rootEnvR 0 { initialMapperState with inProgress := true } rfl

/-- Two leaf folders "A" and "B" whose own selected views contain the
distinct songs "a1" and "b1". -/
def c2Dom : Option (List TreeItem) :=
  some [leafItem "A" [sampleElement "a" "a1"],
        leafItem "B" [sampleElement "b" "b1"]]

/-- Claim C2 evaluation at the failing input: after a full walk over two
distinct leaf folders, the song cache holds a single entry under the one
key "root", and both leaves' stored collections are the root-level
collection ["r1"] — their own views ("a1" / "b1") were never read,
because `_processLeafFolder` passes no folder path to the collector. -/
theorem spec_C2 :
    (startMapping c2Dom rootEnvR 0 initialMapperState).1.cache.map Prod.fst =
      ["root"] ∧
    (startMapping c2Dom rootEnvR 0 initialMapperState).2.map
      (fun s => s.folders.map
        (fun f => (f.name, (f.songs.getD []).map Song.url))) =
      some [("A", ["r1"]), ("B", ["r1"])] ∧
    (startMapping c2Dom rootEnvR 0 initialMapperState).2.map
      (fun s => s.rootSongs.map Song.url) = some ["r1"] := by
  exact ⟨rfl, rfl, rfl⟩

/-- A tree with one collapsed parent (one nested leaf) and one top-level
leaf; every leaf view holds one distinct song. -/
def c5Dom : Option (List TreeItem) :=
  some [parentItem "P" [leafItem "C" [sampleElement "c" "c1"]],
        leafItem "L" [sampleElement "l" "l1"]]

/-- The first walk over `c5Dom` from a fresh mapper. -/
def c5Run1 : MapperState × Option LibStructure :=
  startMapping c5Dom rootEnvR 0 initialMapperState

/-- The second walk over the unchanged `c5Dom`, carrying the first run's
state (and hence its warm song cache). -/
def c5Run2 : MapperState × Option LibStructure :=
  startMapping c5Dom rootEnvR 0 c5Run1.1

/-- Claim C5 evaluation at the failing input: the second walk over the
unchanged tree returns a structurally identical result and performs no
scroll-loop work (every collection is a cache hit), yet it still issues
the same four expand/collapse/select clicks as the first run — the walker
consults no cache before touching the page. -/
theorem spec_C5 :
    c5Run2.2 = c5Run1.2 ∧
    c5Run2.1.uiScrollActions = c5Run1.1.uiScrollActions ∧
    c5Run1.1.uiClicks = 4 ∧
    c5Run2.1.uiClicks = c5Run1.1.uiClicks + 4 := by
  exact ⟨rfl, rfl, rfl, rfl⟩

/-- A first snapshot whose anchor fallback is in effect (no rendered
rows): two anchors with distinct hrefs "u1" and "u2", whose containers
both extract the song url "u1"; afterwards the page is empty and at the
bottom so the loop stops. -/
def c7Env : Nat → ScrollView := fun n =>
  if n = 0 then
    { rows := [],
      links := [ { href := "u1", container := some (sampleElement "S" "u1") },
                 { href := "u2", container := some (sampleElement "T" "u1") } ],
      scrollTop := 0, scrollHeight := 100, clientHeight := 100 }
  else bottomView []

/-- Claim C7 evaluation at the failing input: the collection returned by
`extractSongsFromView` contains the identity "u1" twice — the anchor
fallback checks the seen-set against `link.href` but pushes by
`song.url` without re-checking, defeating the URL deduplication. -/
theorem spec_C7 :
    (extractSongsFromView [] none c7Env 0).songs.map Song.url = ["u1", "u1"] ∧
    ¬ List.Nodup ((extractSongsFromView [] none c7Env 0).songs.map Song.url) := by
  exact ⟨rfl, by decide⟩

/-- The i-th synthetic rendered row: title "Ti", url "ui". -/
def scenRow (i : Nat) : RawElement :=
  sampleElement ("T" ++ toString i) ("u" ++ toString i)

/-- Records 1–36 of the 100-record scenario. -/
def scenPre : List RawElement := (List.range 36).map scenRow

/-- Records 38–100 of the 100-record scenario. -/
def scenPost : List RawElement := (List.range 63).map (fun i => scenRow (i + 37))

/-- The empty extraction accumulator. -/
def emptyAcc : ExtractAcc := { songs := [], seenUrls := [], warningsLogged := 0 }

set_option maxRecDepth 4000 in
/-- Claim C8 witness: the spec's Scenario C — 100 rendered records of
which record 37 raises — yields 99 records and exactly one logged
warning, with processing resuming at record 38 exactly as the theorem
states. -/
theorem spec_C8_witness :
    ((extractFromRows (scenPre ++ throwingElement :: scenPost) emptyAcc).songs.length = 99 ∧
     (extractFromRows (scenPre ++ throwingElement :: scenPost) emptyAcc).warningsLogged = 1) ∧
    extractFromRows (scenPre ++ throwingElement :: scenPost) emptyAcc =
      extractFromRows scenPost (warningBump (extractFromRows scenPre emptyAcc)) :=
  ⟨by decide, spec_C8 scenPre scenPost throwingElement emptyAcc rfl⟩
